import Mathlib

set_option maxRecDepth 100000

/-!
Shallow embedding of the provisioning script `src/c_iron1.py` and proofs about
the behaviour its specification claims.

Modelling conventions:
* External effects (prints, log writes, executed commands, file writes, the
  completion-marker write) are recorded as an explicit event trace.
* A run fragment is an `Exec α`: the list of events it emits together with an
  `Outcome` that is either a returned value or a `sys.exit` with a code.
* The command environment (`Env`) supplies the exit code / stdout / stderr of
  every external command (`subprocess.run`), the `shutil.which` probe, the
  directory listing, the contents of `/etc/os-release`, the
  `XDG_CURRENT_DESKTOP` variable, and the interactive input at the ZeroTier
  prompt, so that every code path of the script is a function of `Env`.
* Python strings are Lean `String`s; `str.strip` / `str.split` are re-implemented
  over the same whitespace set Python uses.  Exception text rendered by
  `str(e)` and `traceback.format_exc()` is abstracted by fixed stand-in strings
  (their exact content is environment dependent and no claim depends on it).
* The log-retention logic of `setup_logging` is additionally modelled as a pure
  transformation `setupLoggingDir` on the multiset of files in the `log`
  directory, with file modification times as natural numbers.
-/

namespace CIron

/-- Result of one external command: exit code, captured stdout, captured stderr. -/
structure CmdResult where
  exitCode : Nat
  stdout : String
  stderr : String
deriving DecidableEq

/-- An invoked command: an argument list, or a single shell-interpreted string
(`subprocess.run(..., shell=True)`). -/
inductive Cmd where
  | argv (args : List String)
  | shellStr (s : String)
deriving DecidableEq

/-- Observable actions of the script, in program order. -/
inductive Event where
  | printed (s : String)
  | promptedInput (prompt : String)
  | loggedError (s : String)
  | ranCmd (c : Cmd)
  | wroteFile (name : String)
  | wroteMarker
  | logSetupDone
deriving DecidableEq

/-- Result of a run fragment: a value, or process termination with an exit code. -/
inductive Outcome (α : Type) where
  | done (a : α)
  | exited (code : Nat)
deriving DecidableEq

/-- A run fragment: emitted events plus outcome. -/
abbrev Exec (α : Type) := List Event × Outcome α

/-- Sequencing of run fragments: a `sys.exit` propagates and skips the rest. -/
def seqE {α β : Type} (x : Exec α) (f : α → Exec β) : Exec β :=
  match x with
  | (evs, Outcome.done a) => ((evs ++ (f a).1), (f a).2)
  | (evs, Outcome.exited code) => (evs, Outcome.exited code)

/-- A fragment that only emits events and succeeds. -/
def emit (evs : List Event) : Exec Unit := (evs, Outcome.done ())

/-- Did the fragment run to completion (no `sys.exit`)? -/
def execDone {α : Type} (x : Exec α) : Bool :=
  match x.2 with
  | Outcome.done _ => true
  | Outcome.exited _ => false

/-! Python string helpers. -/

/-- The whitespace characters stripped/split by Python's default
`str.strip()` / `str.split()`: exactly the code points for which
`str.isspace()` holds (U+0009-U+000D, U+001C-U+001F, U+0020, U+0085, U+00A0,
U+1680, U+2000-U+200A, U+2028, U+2029, U+202F, U+205F, U+3000). -/
def isPySpace (c : Char) : Bool :=
  (0x09 ≤ c.toNat && c.toNat ≤ 0x0d) ||
  (0x1c ≤ c.toNat && c.toNat ≤ 0x20) ||
  c.toNat = 0x85 || c.toNat = 0xa0 || c.toNat = 0x1680 ||
  (0x2000 ≤ c.toNat && c.toNat ≤ 0x200a) ||
  c.toNat = 0x2028 || c.toNat = 0x2029 ||
  c.toNat = 0x202f || c.toNat = 0x205f || c.toNat = 0x3000

/-- Python `str.strip()`: remove leading and trailing whitespace. -/
def pyStrip (s : String) : String :=
  List.asString (((s.toList.dropWhile isPySpace).reverse.dropWhile isPySpace).reverse)

/-- Worker for `pySplitWs`: accumulate the current word (reversed) while
scanning the characters. -/
def splitWsAux : List Char → List Char → List (List Char)
  | [], acc => if acc = [] then [] else [acc.reverse]
  | c :: cs, acc =>
    if isPySpace c then
      (if acc = [] then splitWsAux cs [] else acc.reverse :: splitWsAux cs [])
    else splitWsAux cs (c :: acc)

/-- Python `str.split()` with no argument: split on whitespace runs, no empties. -/
def pySplitWs (s : String) : List String :=
  (splitWsAux s.toList []).map List.asString

/-- Python `str.strip('"')`: remove leading and trailing double-quote characters. -/
def stripQuotes (s : String) : String :=
  List.asString (((s.toList.dropWhile (fun c => c = '"')).reverse.dropWhile (fun c => c = '"')).reverse)

/-- Does the character list start with the given needle? -/
def listStartsWith : List Char → List Char → Bool
  | _, [] => true
  | [], _ :: _ => false
  | c :: cs, d :: ds => c = d && listStartsWith cs ds

/-- Does the needle occur anywhere in the haystack? -/
def listContainsSub : List Char → List Char → Bool
  | [], needle => listStartsWith [] needle
  | c :: cs, needle => listStartsWith (c :: cs) needle || listContainsSub cs needle

/-- Python `needle in haystack` substring test. -/
def strContainsSub (hay needle : String) : Bool :=
  listContainsSub hay.toList needle.toList

/-- Python `str.lower()` (ASCII range, which covers every string compared here). -/
def pyLower (s : String) : String := List.asString (s.toList.map Char.toLower)

/-- Python `str.startswith('.')`. -/
def startsWithDot (s : String) : Bool :=
  match s.toList with
  | [] => false
  | c :: _ => c = '.'

/-! Constants and requirement tables (module-level globals of the script). -/

/-- Name of the logs folder. -/
def LOG_FOLDER : String := "log"

/-- Name of the GPL file allowed in the folder. -/
def GPL_FILENAME : String := "GPLv3.txt"

/-- Basename of the script itself (`os.path.basename(__file__)`). -/
def SCRIPT_NAME : String := "c_iron1.py"

/-- `APT_REQUIREMENTS`: apt package name paired with the command probed for it. -/
def APT_REQUIREMENTS : List (String × String) :=
  [(("curl"), ("curl")),
   (("gpg"), ("gpg")),
   (("pip"), ("pip")),
   (("python3-pylsp"), ("pylsp")),
   (("virt-manager"), ("virt-manager")),
   (("screenfetch"), ("screenfetch")),
   (("flatpak"), ("flatpak")),
   (("plasma-discover-backend-flatpak"), ("plasma-discover-backend-flatpak"))]

/-- `FLATPAK_REQUIREMENTS`: friendly name paired with the Flatpak application id. -/
def FLATPAK_REQUIREMENTS : List (String × String) :=
  [(("Discord"), ("com.discordapp.Discord")),
   (("VLC"), ("org.videolan.VLC")),
   (("RetroArch"), ("org.libretro.RetroArch")),
   (("Prism Launcher"), ("org.prismlauncher.PrismLauncher")),
   (("qBittorrent"), ("org.qbittorrent.qBittorrent")),
   (("Flatseal"), ("com.github.tchx84.Flatseal"))]

/-! The concrete commands the script invokes. -/

def aptUpdateCmd : Cmd := Cmd.argv [("sudo"), ("apt"), ("update")]

def aptUpgradeCmd : Cmd := Cmd.argv [("sudo"), ("apt"), ("upgrade"), ("-y")]

def aptInstallCmd (missing : List String) : Cmd :=
  Cmd.argv ([("sudo"), ("apt"), ("install"), ("-y")] ++ missing)

def flathubAddCmd : Cmd :=
  Cmd.argv [("flatpak"), ("remote-add"), ("--if-not-exists"), ("flathub"),
            ("https://dl.flathub.org/repo/flathub.flatpakrepo")]

def flatpakListCmd : Cmd :=
  Cmd.argv [("flatpak"), ("list"), ("--app"), ("--columns=application")]

def flatpakInstallCmd (appId : String) : Cmd :=
  Cmd.argv [("flatpak"), ("install"), ("flathub"), appId, ("-y")]

def flatpakUpdateCmd : Cmd := Cmd.argv [("flatpak"), ("update"), ("-y")]

/-- The shell-interpreted ZeroTier key-import / install pipeline. -/
def zerotierShellText : String :=
  "curl -s \x27https://raw.githubusercontent.com/zerotier/ZeroTierOne/main/doc/contact%40zerotier.com.gpg\x27 | gpg --import && if z=$(curl -s \x27https://install.zerotier.com/\x27 | gpg); then echo \"$z\" | sudo bash; fi"

def zerotierShellCmd : Cmd := Cmd.shellStr zerotierShellText

def zerotierJoinCmd (networkId : String) : Cmd :=
  Cmd.argv [("sudo"), ("zerotier-cli"), ("join"), networkId]

def rebootCmd : Cmd := Cmd.argv [("sudo"), ("reboot")]

/-! Message constants printed or logged by the script.  Exception renderings
(`str(e)`, `traceback.format_exc()`) are abstracted by fixed stand-ins. -/

def disclaimerText : String :=
  "GNU GENERAL PUBLIC LICENSE Version 3, 29 June 2007 ... Press Enter to continue..."

def gplDownloadingMsg : String :=
  "GPLv3.txt not found. Downloading from https://www.gnu.org/licenses/gpl-3.0.txt ..."

def gplDownloadedMsg : String := "Downloaded GPLv3.txt successfully."

def gplDownloadErrMsg : String := "Error downloading GPLv3.txt: (exception)"

def dirErrorMsg : String :=
  "Error: The folder must contain only this script, \x27GPLv3.txt\x27 and (optionally) a folder named \x27log\x27."

def osReadErrMsg : String :=
  "Error: Unable to read /etc/os-release. This script requires Debian 12 with KDE Plasma."

def debianErrMsg : String := "Error: This script must be run on Debian 12."

def kdeErrMsg : String :=
  "Error: This script must be run on the KDE Plasma desktop environment."

def tracebackText : String := "Traceback (most recent call last)"

def aptUpdateMsg : String := "Running \x27sudo apt update\x27..."

def aptUpgradeMsg : String := "Running \x27sudo apt upgrade -y\x27..."

def installingAptMsg (missing : List String) : String :=
  ("Installing missing apt packages: ") ++ String.intercalate (", ") missing

def aptAllInstalledMsg : String := "All required apt packages are installed."

def updatingAptMsg : String := "Updating apt packages..."

def updatingFlatpakMsg : String := "Updating Flatpak packages..."

def addFlathubMsg : String := "Adding Flatpak Flathub repository (if not already added)..."

def flatpakListErrMsg : String := "Error listing Flatpak apps: (CalledProcessError)"

def missingFlatpakMsg (missing : List (String × String)) : String :=
  ("Missing Flatpak apps: ") ++ String.intercalate (", ") (missing.map (fun p => p.1))

def flatpakAllInstalledMsg : String := "All required Flatpak apps are installed."

def installingFlatpakMsg (appName appId : String) : String :=
  ("Installing Flatpak app: ") ++ appName ++ (" (") ++ appId ++ (")...")

def zerotierImportMsg : String := "Importing ZeroTier GPG key and installing ZeroTier..."

def zerotierPromptMsg : String := "Enter the ZeroTier network ID to join: "

def noNetworkIdMsg : String := "Error: No ZeroTier network ID provided. Exiting."

def joiningMsg (networkId : String) : String :=
  ("Joining ZeroTier network \x27") ++ networkId ++ ("\x27...")

def markerFailLogMsg : String := "Failed to create marker file: (exception)"

def markerWarnMsg : String := "Warning: Unable to create marker file."

def rebootPromptMsg : String := "Initial setup complete. Press Enter to reboot..."

def initialBranchMsg : String := "Initial setup not detected. Proceeding with full installation."

def updateBranchMsg : String := "Initial setup previously completed. Updating packages..."

def logSetupFileName : String := "log/20250101_000000.log"

/-- The command text used in the failure log:
`command if shell else " ".join(command)`. -/
def cmdToStr : Cmd → String
  | Cmd.argv args => String.intercalate (" ") args
  | Cmd.shellStr s => s

/-- The string `run_subprocess` logs on a failed command: it contains the
command text and the captured stderr. -/
def runErrorMsg (c : Cmd) (stderr : String) : String :=
  ("Error running command \x27") ++ cmdToStr c ++ ("\x27: ") ++ stderr

/-- The short console message printed on a failed command. -/
def consoleErrorMsg (stderr : String) : String := ("Error: ") ++ stderr

/-! Directory hygiene check (`verify_directory_contents`). -/

/-- An entry of the script directory.  The hygiene check only ever looks at the
name (`os.listdir` returns names), so whether the entry is a directory is
carried but never consulted. -/
structure DirEntry where
  name : String
  isDirectory : Bool
deriving DecidableEq

/-- The allowed visible names: the script itself, the log folder, the license file. -/
def allowedItems : List String := [SCRIPT_NAME, LOG_FOLDER, GPL_FILENAME]

/-- The loop body of `verify_directory_contents`: exit 1 at the first
non-allowed item. -/
def checkItems : List String → Exec Unit
  | [] => ([], Outcome.done ())
  | item :: rest =>
    if allowedItems.contains item then checkItems rest
    else ([Event.printed dirErrorMsg], Outcome.exited 1)

/-- Names of the non-hidden entries of a listing (hidden = starts with a dot). -/
def visibleNames (entries : List DirEntry) : List String :=
  (entries.map DirEntry.name).filter (fun nm => !(startsWithDot nm))

/-- `verify_directory_contents`, as a function of the directory listing. -/
def verifyDirectoryContents (entries : List DirEntry) : Exec Unit :=
  checkItems (visibleNames entries)

/-! Host identity and desktop session check (`verify_os_and_desktop`). -/

/-- Python `dict.get(key, default)` over an association list built by repeated
assignment (a later binding overrides an earlier one). -/
def dictGet (m : List (String × String)) (key dflt : String) : String :=
  match m.reverse.find? (fun p => p.1 == key) with
  | some p => p.2
  | none => dflt

/-- `line.strip().split("=", 1)`: key before the first equals sign, value the rest. -/
def splitKeyValue (s : String) : String × String :=
  (List.asString (s.toList.takeWhile (fun c => c ≠ '=')),
   List.asString ((s.toList.dropWhile (fun c => c ≠ '=')).drop 1))

/-- The `os_info` dictionary built from the lines of `/etc/os-release`
(only lines containing an equals sign contribute; a later binding of the same
key overrides an earlier one via `dictGet`). -/
def parseOsRelease (lines : List String) : List (String × String) :=
  lines.foldl
    (fun acc line =>
      if line.toList.contains '=' then
        acc ++ [((splitKeyValue (pyStrip line)).1, stripQuotes (splitKeyValue (pyStrip line)).2)]
      else acc)
    []

/-- The host-identity condition of `verify_os_and_desktop`:
`os_info.get("ID","").lower() == "debian" and os_info.get("VERSION_ID","") == "12"`. -/
def osIdentityPasses (info : List (String × String)) : Bool :=
  (pyLower (dictGet info ("ID") ("")) == ("debian")) &&
    ((dictGet info ("VERSION_ID") ("")) == ("12"))

/-- The desktop-session condition: `"KDE" in env or "Plasma" in env`. -/
def desktopSessionOk (desktopEnv : String) : Bool :=
  strContainsSub desktopEnv ("KDE") || strContainsSub desktopEnv ("Plasma")

/-- `verify_os_and_desktop` as a function of the readable lines of
`/etc/os-release` (`none` models an unreadable file) and of
`XDG_CURRENT_DESKTOP`. -/
def verifyOsAndDesktop (osLines : Option (List String)) (desktopEnv : String) : Exec Unit :=
  match osLines with
  | none => ([Event.printed osReadErrMsg], Outcome.exited 1)
  | some lines =>
    if !(osIdentityPasses (parseOsRelease lines)) then
      ([Event.printed debianErrMsg], Outcome.exited 1)
    else if !(desktopSessionOk desktopEnv) then
      ([Event.printed kdeErrMsg], Outcome.exited 1)
    else ([], Outcome.done ())

/-! Log-retention model of `setup_logging` (state of the `log` directory). -/

/-- A log file: its name and its modification time. -/
structure LogFile where
  name : String
  mtime : Nat
deriving DecidableEq

/-- Insert a file into a list sorted by ascending modification time. -/
def insertByMtime (f : LogFile) : List LogFile → List LogFile
  | [] => [f]
  | g :: gs => if f.mtime ≤ g.mtime then f :: g :: gs else g :: insertByMtime f gs

/-- `sorted(..., key=os.path.getmtime)`: sort by ascending modification time. -/
def sortByMtime : List LogFile → List LogFile
  | [] => []
  | f :: fs => insertByMtime f (sortByMtime fs)

/-- The effect of one `setup_logging` call on the log directory: if at least
three log files exist, try to delete the oldest (`evictOk` tells whether the
`os.remove` succeeds; a failure is only warned about), then create the new
timestamp-named log file. -/
def setupLoggingDir (dir : List LogFile) (evictOk : Bool) (newFile : LogFile) : List LogFile :=
  let logFiles := sortByMtime dir
  let dirAfterEvict :=
    if logFiles.length ≥ 3 then
      match logFiles with
      | [] => dir
      | oldest :: _ => if evictOk then dir.erase oldest else dir
    else dir
  dirAfterEvict ++ [newFile]

/-- The log file created by run number `i` (timestamps strictly increase). -/
def mkLog (i : Nat) : LogFile := ⟨(toString i) ++ (".log"), i⟩

/-- The log directory after `n` runs starting from an empty directory, all
evictions succeeding. -/
def logRuns : Nat → List LogFile
  | 0 => []
  | n + 1 => setupLoggingDir (logRuns n) true (mkLog (n + 1))

/-! The command environment and the command runner. -/

/-- Everything outside the script that determines a run: command results,
`shutil.which`, the directory listing, `/etc/os-release`,
`XDG_CURRENT_DESKTOP`, presence of `GPLv3.txt` and whether its download would
succeed, presence of the completion marker and whether writing it would
succeed, and the text typed at the ZeroTier prompt. -/
structure Env where
  exec : Cmd → CmdResult
  commandOnPath : String → Bool
  dirEntries : List DirEntry
  osReleaseLines : Option (List String)
  desktopEnv : String
  gplPresent : Bool
  gplDownloadOk : Bool
  markerPresent : Bool
  markerWriteOk : Bool
  networkIdInput : String

/-- `run_subprocess`: run the command; on success print captured stdout (if
non-empty) and return it; on failure log the error with the command text and
stderr plus a traceback, print a short error, and exit 1. -/
def runSubprocessE (env : Env) (c : Cmd) : Exec String :=
  let r := env.exec c
  if r.exitCode = 0 then
    ((if r.stdout ≠ ("") then [Event.ranCmd c, Event.printed r.stdout]
      else [Event.ranCmd c]), Outcome.done r.stdout)
  else
    ([Event.ranCmd c, Event.loggedError (runErrorMsg c r.stderr),
      Event.loggedError tracebackText, Event.printed (consoleErrorMsg r.stderr)],
     Outcome.exited 1)

/-! The step functions of the script. -/

/-- `print_disclaimer_and_wait`. -/
def printDisclaimerPhase : Exec Unit :=
  ([Event.printed disclaimerText, Event.promptedInput ("")], Outcome.done ())

/-- `ensure_gpl_file_exists`: download `GPLv3.txt` when absent; a failed
download is fatal. -/
def ensureGplFileExists (env : Env) : Exec Unit :=
  if env.gplPresent then ([], Outcome.done ())
  else if env.gplDownloadOk then
    ([Event.printed gplDownloadingMsg, Event.wroteFile GPL_FILENAME,
      Event.printed gplDownloadedMsg], Outcome.done ())
  else
    ([Event.printed gplDownloadingMsg, Event.printed gplDownloadErrMsg], Outcome.exited 1)

/-- `setup_logging` as seen by the main control flow: logging becomes active
and the log path is returned (the directory arithmetic is `setupLoggingDir`). -/
def logSetupPhase : Exec String :=
  ([Event.logSetupDone], Outcome.done logSetupFileName)

/-- The missing-apt-package computation at the top of `initial_setup`. -/
def computeMissingApt (onPath : String → Bool) : List (String × String) → List String
  | [] => []
  | (pkg, cmdName) :: rest =>
    if onPath cmdName then computeMissingApt onPath rest
    else pkg :: computeMissingApt onPath rest

/-- `update_and_install_apt_packages`: update and upgrade unconditionally, then
install the missing packages only if there are any. -/
def updateAndInstallAptPackages (env : Env) (missing : List String) : Exec Unit :=
  seqE (emit [Event.printed aptUpdateMsg]) (fun _ =>
  seqE (runSubprocessE env aptUpdateCmd) (fun _ =>
  seqE (emit [Event.printed aptUpgradeMsg]) (fun _ =>
  seqE (runSubprocessE env aptUpgradeCmd) (fun _ =>
  if missing ≠ [] then
    seqE (emit [Event.printed (installingAptMsg missing)]) (fun _ =>
    seqE (runSubprocessE env (aptInstallCmd missing)) (fun _ =>
    ([], Outcome.done ())))
  else emit [Event.printed aptAllInstalledMsg]))))

/-- `update_apt_packages`. -/
def updateAptPackages (env : Env) : Exec Unit :=
  seqE (emit [Event.printed updatingAptMsg]) (fun _ =>
  seqE (runSubprocessE env aptUpdateCmd) (fun _ =>
  seqE (runSubprocessE env aptUpgradeCmd) (fun _ =>
  ([], Outcome.done ()))))

/-- `update_flatpak_packages`. -/
def updateFlatpakPackages (env : Env) : Exec Unit :=
  seqE (emit [Event.printed updatingFlatpakMsg]) (fun _ =>
  seqE (runSubprocessE env flatpakUpdateCmd) (fun _ =>
  ([], Outcome.done ())))

/-- `add_flathub_repo`. -/
def addFlathubRepo (env : Env) : Exec Unit :=
  seqE (emit [Event.printed addFlathubMsg]) (fun _ =>
  seqE (runSubprocessE env flathubAddCmd) (fun _ =>
  ([], Outcome.done ())))

/-- The `flatpak list` query of `initial_setup`: run directly (not through
`run_subprocess`); on success the installed ids are the whitespace split of
stdout; on failure the error is logged and the installed set becomes empty —
execution continues either way. -/
def flatpakListPhase (env : Env) : Exec (List String) :=
  let r := env.exec flatpakListCmd
  if r.exitCode = 0 then
    ([Event.ranCmd flatpakListCmd], Outcome.done (pySplitWs r.stdout))
  else
    ([Event.ranCmd flatpakListCmd, Event.loggedError flatpakListErrMsg], Outcome.done [])

/-- The installed-app list `flatpakListPhase` returns. -/
def installedOf (env : Env) : List String :=
  if (env.exec flatpakListCmd).exitCode = 0 then pySplitWs (env.exec flatpakListCmd).stdout
  else []

/-- The missing-Flatpak computation of `initial_setup`, in table order. -/
def computeMissingFlatpaks (installed : List String) : List (String × String) → List (String × String)
  | [] => []
  | (appName, appId) :: rest =>
    if installed.contains appId then computeMissingFlatpaks installed rest
    else (appName, appId) :: computeMissingFlatpaks installed rest

/-- `install_flatpak_apps`: install each missing app individually, in order. -/
def installFlatpakApps (env : Env) : List (String × String) → Exec Unit
  | [] => ([], Outcome.done ())
  | (appName, appId) :: rest =>
    seqE (emit [Event.printed (installingFlatpakMsg appName appId)]) (fun _ =>
    seqE (runSubprocessE env (flatpakInstallCmd appId)) (fun _ =>
    installFlatpakApps env rest))

/-- The Flatpak block of `initial_setup` after the list query: compute the
missing set; if non-empty announce and install it, otherwise only print. -/
def flatpakInstallPhase (env : Env) (installed : List String) : Exec Unit :=
  let missing := computeMissingFlatpaks installed FLATPAK_REQUIREMENTS
  if missing ≠ [] then
    seqE (emit [Event.printed (missingFlatpakMsg missing)]) (fun _ =>
    installFlatpakApps env missing)
  else emit [Event.printed flatpakAllInstalledMsg]

/-- `perform_zerotier_commands`: run the shell pipeline, prompt for a network
id, strip it, exit 1 when it is empty, otherwise join. -/
def performZerotierCommands (env : Env) : Exec Unit :=
  seqE (emit [Event.printed zerotierImportMsg]) (fun _ =>
  seqE (runSubprocessE env zerotierShellCmd) (fun _ =>
  seqE (emit [Event.promptedInput zerotierPromptMsg]) (fun _ =>
  if pyStrip env.networkIdInput = ("") then
    ([Event.printed noNetworkIdMsg], Outcome.exited 1)
  else
    seqE (emit [Event.printed (joiningMsg (pyStrip env.networkIdInput))]) (fun _ =>
    seqE (runSubprocessE env (zerotierJoinCmd (pyStrip env.networkIdInput))) (fun _ =>
    ([], Outcome.done ()))))))

/-- The marker write at the end of `initial_setup`: a failed write is only a
logged warning, not fatal. -/
def markerPhase (env : Env) : Exec Unit :=
  if env.markerWriteOk then ([Event.wroteMarker], Outcome.done ())
  else ([Event.loggedError markerFailLogMsg, Event.printed markerWarnMsg], Outcome.done ())

/-- The reboot prompt and command at the very end of `initial_setup`. -/
def rebootPhase (env : Env) : Exec Unit :=
  seqE (emit [Event.promptedInput rebootPromptMsg]) (fun _ =>
  seqE (runSubprocessE env rebootCmd) (fun _ =>
  ([], Outcome.done ())))

/-- `initial_setup`. -/
def initialSetup (env : Env) : Exec Unit :=
  seqE (updateAndInstallAptPackages env (computeMissingApt env.commandOnPath APT_REQUIREMENTS)) (fun _ =>
  seqE (addFlathubRepo env) (fun _ =>
  seqE (flatpakListPhase env) (fun installed =>
  seqE (flatpakInstallPhase env installed) (fun _ =>
  seqE (performZerotierCommands env) (fun _ =>
  seqE (markerPhase env) (fun _ =>
  rebootPhase env))))))

/-- `update_system`. -/
def updateSystem (env : Env) : Exec Unit :=
  seqE (updateAptPackages env) (fun _ =>
  updateFlatpakPackages env)

/-- The part of `main` that runs once all pre-logging checks have passed:
logging starts, then the branch is selected on the marker file
(`if not os.path.exists(MARKER_FILE)`). -/
def postGatePhase (env : Env) : Exec Unit :=
  seqE logSetupPhase (fun logFile =>
  seqE (emit [Event.printed (("Logging to: ") ++ logFile)]) (fun _ =>
  if env.markerPresent = false then
    seqE (emit [Event.printed initialBranchMsg]) (fun _ => initialSetup env)
  else
    seqE (emit [Event.printed updateBranchMsg]) (fun _ => updateSystem env)))

/-- `main`. -/
def mainE (env : Env) : Exec Unit :=
  seqE printDisclaimerPhase (fun _ =>
  seqE (ensureGplFileExists env) (fun _ =>
  seqE (verifyDirectoryContents env.dirEntries) (fun _ =>
  seqE (verifyOsAndDesktop env.osReleaseLines env.desktopEnv) (fun _ =>
  postGatePhase env))))

/-- The events of a whole run. -/
def mainEvents (env : Env) : List Event := (mainE env).1

/-- Marker presence after a run: it was present before, or the run wrote it.
No code path ever deletes the marker file, so no removal action exists. -/
def markerAfter (env : Env) : Prop :=
  env.markerPresent = true ∨ Event.wroteMarker ∈ mainEvents env

/-! Gate conditions as boolean functions of the environment. -/

/-- Directory hygiene condition. -/
def dirCheckOk (entries : List DirEntry) : Bool :=
  (visibleNames entries).all (fun nm => allowedItems.contains nm)

/-- Host identity and desktop session condition. -/
def osDesktopOk (osLines : Option (List String)) (desktopEnv : String) : Bool :=
  match osLines with
  | none => false
  | some lines => osIdentityPasses (parseOsRelease lines) && desktopSessionOk desktopEnv

/-- The license file is present or can be downloaded. -/
def gplOk (env : Env) : Bool := env.gplPresent || env.gplDownloadOk

/-- All pre-logging checks of `main` pass. -/
def gateOk (env : Env) : Bool :=
  gplOk env && dirCheckOk env.dirEntries && osDesktopOk env.osReleaseLines env.desktopEnv

/-- Events that can occur before logging is initialized: console output,
interactive prompts, and the license-file download (the only file the pre-gate
code can write is `GPLv3.txt`). -/
def preGateEvent : Event → Bool
  | Event.printed _ => true
  | Event.promptedInput _ => true
  | Event.wroteFile nm => nm == GPL_FILENAME
  | _ => false

/-- The commands of an event trace, in order. -/
def ranCmdsOf (evs : List Event) : List Cmd :=
  evs.filterMap (fun e => match e with | Event.ranCmd c => some c | _ => none)

/-! Concrete environments used by witnesses and counterexamples. -/

/-- An external world in which every command succeeds with empty output. -/
def execAllOk : Cmd → CmdResult := fun _ => ⟨0, (""), ("")⟩

/-- Readable `/etc/os-release` lines of a Debian 12 host. -/
def osLinesDebian12 : List String := [("ID=debian"), ("VERSION_ID=\"12\"")]

/-- A clean script directory: the script, the log folder, the license file. -/
def cleanDirEntries : List DirEntry :=
  [⟨SCRIPT_NAME, false⟩, ⟨LOG_FOLDER, true⟩, ⟨GPL_FILENAME, false⟩]

/-- A fully healthy first-run environment. -/
def envFirstRunOk : Env :=
  ⟨execAllOk, (fun _ => true), cleanDirEntries, some osLinesDebian12, ("KDE"),
   true, true, false, true, ("abc123")⟩

/-- Like `envFirstRunOk` but the marker is already present. -/
def envSecondRun : Env :=
  ⟨execAllOk, (fun _ => true), cleanDirEntries, some osLinesDebian12, ("KDE"),
   true, true, true, true, ("abc123")⟩

/-- First run in which only the `flatpak list` query fails. -/
def envFlatpakListFails : Env :=
  ⟨(fun c => if c = flatpakListCmd then ⟨1, (""), ("disk full")⟩ else ⟨0, (""), ("")⟩),
   (fun _ => true), cleanDirEntries, some osLinesDebian12, ("KDE"),
   true, true, false, true, ("abc123")⟩

/-- Environment with a missing license file and a stray visible file, so the
download happens and then the hygiene gate fails. -/
def envGplThenDirFail : Env :=
  ⟨execAllOk, (fun _ => true),
   [⟨SCRIPT_NAME, false⟩, ⟨("stray.txt"), false⟩], some osLinesDebian12, ("KDE"),
   false, true, false, true, ("abc123")⟩

/-- First-run environment in which the ZeroTier prompt receives an empty string. -/
def envEmptyNetworkId : Env :=
  ⟨execAllOk, (fun _ => true), cleanDirEntries, some osLinesDebian12, ("KDE"),
   true, true, false, true, ("")⟩

/-- First-run environment in which the prompt receives only whitespace. -/
def envSpacesNetworkId : Env :=
  ⟨execAllOk, (fun _ => true), cleanDirEntries, some osLinesDebian12, ("KDE"),
   true, true, false, true, ("   ")⟩

/-- First-run environment in which the prompt receives a single no-break
space (U+00A0): whitespace for Python's str.strip, though not ASCII. -/
def envNbspNetworkId : Env :=
  ⟨execAllOk, (fun _ => true), cleanDirEntries, some osLinesDebian12, ("KDE"),
   true, true, false, true, ("\u00A0")⟩

/-- First-run environment in which the prompt receives an id with surrounding
whitespace. -/
def envPaddedNetworkId : Env :=
  ⟨execAllOk, (fun _ => true), cleanDirEntries, some osLinesDebian12, ("KDE"),
   true, true, false, true, ("  abc123 ")⟩

/-! Basic lemmas about sequencing. -/

theorem seqE_of_done {α β : Type} (x : Exec α) (f : α → Exec β) (v : α)
    (h : x.2 = Outcome.done v) : seqE x f = (x.1 ++ (f v).1, (f v).2) := by
  rcases x with ⟨evs, out⟩
  cases out with
  | done a =>
    simp only at h
    cases h
    rfl
  | exited code => simp at h

theorem seqE_of_exited {α β : Type} (x : Exec α) (f : α → Exec β) (n : Nat)
    (h : x.2 = Outcome.exited n) : seqE x f = (x.1, Outcome.exited n) := by
  rcases x with ⟨evs, out⟩
  cases out with
  | done a => simp at h
  | exited code =>
    simp only at h
    cases h
    rfl

theorem mem_seqE {α β : Type} (e : Event) (x : Exec α) (f : α → Exec β) :
    e ∈ (seqE x f).1 ↔ e ∈ x.1 ∨ ∃ a, x.2 = Outcome.done a ∧ e ∈ (f a).1 := by
  rcases x with ⟨evs, out⟩
  cases out <;> simp [seqE]

theorem execDone_unit_iff (x : Exec Unit) :
    execDone x = true ↔ x.2 = Outcome.done () := by
  rcases x with ⟨evs, out⟩
  cases out with
  | done a => cases a; simp [execDone]
  | exited code => simp [execDone]

theorem mem_seqE_const {α β : Type} (e : Event) (x : Exec α) (y : Exec β) :
    e ∈ (seqE x (fun _ => y)).1 ↔ e ∈ x.1 ∨ (execDone x = true ∧ e ∈ y.1) := by
  rcases x with ⟨evs, out⟩
  cases out <;> simp [seqE, execDone]

theorem mem_seqE_done {α β : Type} (e : Event) (x : Exec α) (f : α → Exec β) (v : α)
    (h : x.2 = Outcome.done v) : e ∈ (seqE x f).1 ↔ e ∈ x.1 ∨ e ∈ (f v).1 := by
  rw [seqE_of_done x f v h]
  simp

theorem execDone_seqE_const {α β : Type} (x : Exec α) (y : Exec β) :
    execDone (seqE x (fun _ => y)) = true ↔ execDone x = true ∧ execDone y = true := by
  rcases x with ⟨evs, out⟩
  cases out <;> simp [seqE, execDone]

theorem execDone_seqE_done {α β : Type} (x : Exec α) (f : α → Exec β) (v : α)
    (h : x.2 = Outcome.done v) :
    execDone (seqE x f) = true ↔ execDone (f v) = true := by
  rw [seqE_of_done x f v h]
  simp [execDone]

theorem execDone_emit (evs : List Event) : execDone (emit evs) = true := rfl

/-! Lemmas about the command runner. -/

theorem runSubprocess_snd (env : Env) (c : Cmd) :
    (runSubprocessE env c).2 =
      if (env.exec c).exitCode = 0 then Outcome.done (env.exec c).stdout
      else Outcome.exited 1 := by
  unfold runSubprocessE
  split <;> simp [*]

theorem execDone_runSubprocess (env : Env) (c : Cmd) :
    execDone (runSubprocessE env c) = true ↔ (env.exec c).exitCode = 0 := by
  by_cases h : (env.exec c).exitCode = 0 <;>
    simp [execDone, runSubprocess_snd, h]

theorem mem_runSubprocess (e : Event) (env : Env) (c : Cmd) :
    e ∈ (runSubprocessE env c).1 ↔
      (e = Event.ranCmd c ∨
       ((env.exec c).exitCode = 0 ∧ (env.exec c).stdout ≠ ("") ∧
         e = Event.printed (env.exec c).stdout) ∨
       ((env.exec c).exitCode ≠ 0 ∧
         (e = Event.loggedError (runErrorMsg c (env.exec c).stderr) ∨
          e = Event.loggedError tracebackText ∨
          e = Event.printed (consoleErrorMsg (env.exec c).stderr)))) := by
  by_cases h : (env.exec c).exitCode = 0
  · by_cases h2 : (env.exec c).stdout = ("")
    · simp [runSubprocessE, h, h2]
    · simp [runSubprocessE, h, h2]
  · simp [runSubprocessE, h]

/-! Lemmas about the directory hygiene loop. -/

theorem checkItems_pass (l : List String)
    (h : l.all (fun nm => allowedItems.contains nm) = true) :
    checkItems l = ([], Outcome.done ()) := by
  induction l with
  | nil => rfl
  | cons a t ih =>
    simp only [List.all_cons, Bool.and_eq_true] at h
    have hm : a ∈ allowedItems := by simpa using h.1
    simp [checkItems, hm, ih h.2]

theorem checkItems_fail (l : List String)
    (h : l.all (fun nm => allowedItems.contains nm) = false) :
    checkItems l = ([Event.printed dirErrorMsg], Outcome.exited 1) := by
  induction l with
  | nil => simp at h
  | cons a t ih =>
    by_cases ha : allowedItems.contains a = true
    · simp only [List.all_cons, ha, Bool.true_and] at h
      simp [checkItems, ha, ih h]
    · have hm : a ∉ allowedItems := by
        simp only [Bool.not_eq_true] at ha
        simpa using ha
      simp [checkItems, hm]

theorem verifyDir_ok (entries : List DirEntry) (h : dirCheckOk entries = true) :
    verifyDirectoryContents entries = ([], Outcome.done ()) := by
  unfold dirCheckOk at h
  exact checkItems_pass _ h

theorem verifyDir_fail (entries : List DirEntry) (h : dirCheckOk entries = false) :
    verifyDirectoryContents entries = ([Event.printed dirErrorMsg], Outcome.exited 1) := by
  unfold dirCheckOk at h
  exact checkItems_fail _ h

/-! Lemmas about the license-file step and the identity/session check. -/

theorem ensureGpl_present (env : Env) (h : env.gplPresent = true) :
    ensureGplFileExists env = ([], Outcome.done ()) := by
  simp [ensureGplFileExists, h]

theorem ensureGpl_download (env : Env) (h1 : env.gplPresent = false)
    (h2 : env.gplDownloadOk = true) :
    ensureGplFileExists env =
      ([Event.printed gplDownloadingMsg, Event.wroteFile GPL_FILENAME,
        Event.printed gplDownloadedMsg], Outcome.done ()) := by
  simp [ensureGplFileExists, h1, h2]

theorem ensureGpl_fail (env : Env) (h1 : env.gplPresent = false)
    (h2 : env.gplDownloadOk = false) :
    ensureGplFileExists env =
      ([Event.printed gplDownloadingMsg, Event.printed gplDownloadErrMsg],
       Outcome.exited 1) := by
  simp [ensureGplFileExists, h1, h2]

theorem verifyOs_ok (osLines : Option (List String)) (desktopEnv : String)
    (h : osDesktopOk osLines desktopEnv = true) :
    verifyOsAndDesktop osLines desktopEnv = ([], Outcome.done ()) := by
  cases osLines with
  | none => simp [osDesktopOk] at h
  | some lines =>
    simp only [osDesktopOk, Bool.and_eq_true] at h
    simp [verifyOsAndDesktop, h.1, h.2]

theorem verifyOs_fail (osLines : Option (List String)) (desktopEnv : String)
    (h : osDesktopOk osLines desktopEnv = false) :
    ∃ m, verifyOsAndDesktop osLines desktopEnv = ([Event.printed m], Outcome.exited 1) := by
  cases osLines with
  | none => exact ⟨osReadErrMsg, rfl⟩
  | some lines =>
    by_cases h1 : osIdentityPasses (parseOsRelease lines) = true
    · refine ⟨kdeErrMsg, ?_⟩
      have h2 : desktopSessionOk desktopEnv = false := by
        simpa [osDesktopOk, h1] using h
      simp [verifyOsAndDesktop, h1, h2]
    · refine ⟨debianErrMsg, ?_⟩
      simp only [Bool.not_eq_true] at h1
      simp [verifyOsAndDesktop, h1]

/-! Which phases can write the completion marker. -/

theorem wroteMarker_not_mem_runSubprocess (env : Env) (c : Cmd) :
    Event.wroteMarker ∉ (runSubprocessE env c).1 := by
  rw [mem_runSubprocess]
  simp

theorem wroteMarker_not_mem_updateAndInstallApt (env : Env) (missing : List String) :
    Event.wroteMarker ∉ (updateAndInstallAptPackages env missing).1 := by
  unfold updateAndInstallAptPackages
  by_cases hm : missing = [] <;>
    simp [hm, mem_seqE_const, emit, wroteMarker_not_mem_runSubprocess]

theorem wroteMarker_not_mem_addFlathub (env : Env) :
    Event.wroteMarker ∉ (addFlathubRepo env).1 := by
  simp [addFlathubRepo, mem_seqE_const, emit, wroteMarker_not_mem_runSubprocess]

theorem wroteMarker_not_mem_flatpakList (env : Env) :
    Event.wroteMarker ∉ (flatpakListPhase env).1 := by
  unfold flatpakListPhase
  by_cases h : (env.exec flatpakListCmd).exitCode = 0 <;> simp [h]

theorem wroteMarker_not_mem_installFlatpaks (env : Env) (apps : List (String × String)) :
    Event.wroteMarker ∉ (installFlatpakApps env apps).1 := by
  induction apps with
  | nil => simp [installFlatpakApps]
  | cons p rest ih =>
    rcases p with ⟨nm, aid⟩
    simp [installFlatpakApps, mem_seqE_const, emit,
      wroteMarker_not_mem_runSubprocess, ih]

theorem wroteMarker_not_mem_flatpakInstallPhase (env : Env) (installed : List String) :
    Event.wroteMarker ∉ (flatpakInstallPhase env installed).1 := by
  unfold flatpakInstallPhase
  by_cases hm : computeMissingFlatpaks installed FLATPAK_REQUIREMENTS = [] <;>
    simp [hm, mem_seqE_const, emit, wroteMarker_not_mem_installFlatpaks]

theorem wroteMarker_not_mem_zerotier (env : Env) :
    Event.wroteMarker ∉ (performZerotierCommands env).1 := by
  unfold performZerotierCommands
  by_cases h : pyStrip env.networkIdInput = ("") <;>
    simp [h, mem_seqE_const, emit, wroteMarker_not_mem_runSubprocess]

theorem wroteMarker_not_mem_reboot (env : Env) :
    Event.wroteMarker ∉ (rebootPhase env).1 := by
  simp [rebootPhase, mem_seqE_const, emit, wroteMarker_not_mem_runSubprocess]

theorem wroteMarker_mem_markerPhase (env : Env) :
    Event.wroteMarker ∈ (markerPhase env).1 ↔ env.markerWriteOk = true := by
  cases h : env.markerWriteOk <;> simp [markerPhase, h]

theorem wroteMarker_not_mem_updateSystem (env : Env) :
    Event.wroteMarker ∉ (updateSystem env).1 := by
  simp [updateSystem, updateAptPackages, updateFlatpakPackages, mem_seqE_const, emit,
    wroteMarker_not_mem_runSubprocess]

theorem flatpakList_snd (env : Env) :
    (flatpakListPhase env).2 = Outcome.done (installedOf env) := by
  unfold flatpakListPhase installedOf
  by_cases h : (env.exec flatpakListCmd).exitCode = 0 <;> simp [h]

/-- The marker-write event occurs in `initial_setup` exactly when every
provisioning step before the write ran to completion and the write succeeds. -/
theorem wroteMarker_mem_initialSetup (env : Env) :
    Event.wroteMarker ∈ (initialSetup env).1 ↔
      (execDone (updateAndInstallAptPackages env
          (computeMissingApt env.commandOnPath APT_REQUIREMENTS)) = true ∧
       execDone (addFlathubRepo env) = true ∧
       execDone (flatpakInstallPhase env (installedOf env)) = true ∧
       execDone (performZerotierCommands env) = true ∧
       env.markerWriteOk = true) := by
  unfold initialSetup
  rw [mem_seqE_const, mem_seqE_const,
    mem_seqE_done _ _ _ (installedOf env) (flatpakList_snd env),
    mem_seqE_const, mem_seqE_const, mem_seqE_const]
  simp [wroteMarker_not_mem_updateAndInstallApt, wroteMarker_not_mem_addFlathub,
    wroteMarker_not_mem_flatpakList, wroteMarker_not_mem_flatpakInstallPhase,
    wroteMarker_not_mem_zerotier, wroteMarker_not_mem_reboot,
    wroteMarker_mem_markerPhase, execDone_emit, and_assoc]

/-! Lemmas about the gate phases of `main`. -/

theorem mem_checkItems (l : List String) (e : Event) (he : e ∈ (checkItems l).1) :
    e = Event.printed dirErrorMsg := by
  cases h : l.all (fun nm => allowedItems.contains nm)
  · rw [checkItems_fail l h] at he
    simpa using he
  · rw [checkItems_pass l h] at he
    simp at he

theorem wroteMarker_not_mem_disclaimer : Event.wroteMarker ∉ printDisclaimerPhase.1 := by
  simp [printDisclaimerPhase]

theorem wroteMarker_not_mem_ensureGpl (env : Env) :
    Event.wroteMarker ∉ (ensureGplFileExists env).1 := by
  unfold ensureGplFileExists
  cases hp : env.gplPresent <;> cases hd : env.gplDownloadOk <;> simp

theorem wroteMarker_not_mem_verifyDir (entries : List DirEntry) :
    Event.wroteMarker ∉ (verifyDirectoryContents entries).1 := by
  intro h
  have := mem_checkItems _ _ h
  simp at this

theorem wroteMarker_not_mem_verifyOs (osLines : Option (List String)) (desktopEnv : String) :
    Event.wroteMarker ∉ (verifyOsAndDesktop osLines desktopEnv).1 := by
  unfold verifyOsAndDesktop
  cases osLines with
  | none => simp
  | some lines =>
    by_cases h1 : osIdentityPasses (parseOsRelease lines) = true <;>
      by_cases h2 : desktopSessionOk desktopEnv = true <;> simp [h1, h2]

theorem execDone_ensureGpl (env : Env) :
    execDone (ensureGplFileExists env) = true ↔ gplOk env = true := by
  unfold ensureGplFileExists gplOk
  cases hp : env.gplPresent <;> cases hd : env.gplDownloadOk <;> simp [execDone]

theorem execDone_verifyDir (entries : List DirEntry) :
    execDone (verifyDirectoryContents entries) = true ↔ dirCheckOk entries = true := by
  cases h : dirCheckOk entries
  · rw [verifyDir_fail _ h]
    simp [execDone]
  · rw [verifyDir_ok _ h]
    simp [execDone]

theorem execDone_verifyOs (osLines : Option (List String)) (desktopEnv : String) :
    execDone (verifyOsAndDesktop osLines desktopEnv) = true ↔
      osDesktopOk osLines desktopEnv = true := by
  cases h : osDesktopOk osLines desktopEnv
  · obtain ⟨m, hm⟩ := verifyOs_fail _ _ h
    rw [hm]
    simp [execDone]
  · rw [verifyOs_ok _ _ h]
    simp [execDone]

theorem gateOk_iff (env : Env) :
    gateOk env = true ↔
      (gplOk env = true ∧ dirCheckOk env.dirEntries = true ∧
       osDesktopOk env.osReleaseLines env.desktopEnv = true) := by
  simp [gateOk, Bool.and_eq_true, and_assoc]

/-! Marker behaviour of the whole run. -/

theorem execDone_disclaimer : execDone printDisclaimerPhase = true := rfl

theorem mem_emit (e : Event) (evs : List Event) : e ∈ (emit evs).1 ↔ e ∈ evs := Iff.rfl

theorem wroteMarker_mem_postGate (env : Env) :
    Event.wroteMarker ∈ (postGatePhase env).1 ↔
      (env.markerPresent = false ∧ Event.wroteMarker ∈ (initialSetup env).1) := by
  unfold postGatePhase
  rw [mem_seqE_done _ _ _ logSetupFileName rfl]
  cases h : env.markerPresent
  · simp [h, logSetupPhase, mem_seqE_const, emit, execDone_emit, execDone]
  · simp [h, logSetupPhase, mem_seqE_const, emit, wroteMarker_not_mem_updateSystem]

theorem wroteMarker_mem_main (env : Env) :
    Event.wroteMarker ∈ mainEvents env ↔
      (gateOk env = true ∧ env.markerPresent = false ∧
       Event.wroteMarker ∈ (initialSetup env).1) := by
  unfold mainEvents mainE
  rw [mem_seqE_const, mem_seqE_const, mem_seqE_const, mem_seqE_const]
  simp [wroteMarker_not_mem_disclaimer, wroteMarker_not_mem_ensureGpl,
    wroteMarker_not_mem_verifyDir, wroteMarker_not_mem_verifyOs,
    execDone_ensureGpl, execDone_verifyDir, execDone_verifyOs, execDone_disclaimer,
    wroteMarker_mem_postGate, gateOk_iff, and_assoc]

/-- With the gate passing, the branch announcements of `main`. -/
theorem branch_selection (env : Env) (hg : gateOk env = true) :
    (env.markerPresent = false → Event.printed initialBranchMsg ∈ mainEvents env) ∧
    (env.markerPresent = true → Event.printed updateBranchMsg ∈ mainEvents env) := by
  obtain ⟨h1, h2, h3⟩ := (gateOk_iff env).mp hg
  constructor
  · intro hm
    unfold mainEvents mainE postGatePhase
    rw [mem_seqE_const, mem_seqE_const, mem_seqE_const, mem_seqE_const,
      mem_seqE_done _ _ _ logSetupFileName rfl, mem_seqE_const]
    simp [hm, execDone_ensureGpl, execDone_verifyDir, execDone_verifyOs, h1, h2, h3,
      execDone_disclaimer, execDone_emit, mem_emit, logSetupPhase, mem_seqE_const]
  · intro hm
    unfold mainEvents mainE postGatePhase
    rw [mem_seqE_const, mem_seqE_const, mem_seqE_const, mem_seqE_const,
      mem_seqE_done _ _ _ logSetupFileName rfl, mem_seqE_const]
    simp [hm, execDone_ensureGpl, execDone_verifyDir, execDone_verifyOs, h1, h2, h3,
      execDone_disclaimer, execDone_emit, mem_emit, logSetupPhase, mem_seqE_const]

/-- When any pre-logging check fails, the whole run exits 1 having produced
only console output, prompts and possibly the license-file download. -/
theorem main_gate_fail (env : Env) (h : gateOk env = false) :
    (mainE env).2 = Outcome.exited 1 ∧ (mainEvents env).all preGateEvent = true ∧
      ∃ s, Event.printed s ∈ mainEvents env := by
  by_cases hg : gplOk env = true
  · by_cases hd : dirCheckOk env.dirEntries = true
    · have hos : osDesktopOk env.osReleaseLines env.desktopEnv = false := by
        simpa [gateOk, hg, hd] using h
      obtain ⟨m, hm⟩ := verifyOs_fail _ _ hos
      have hdir := verifyDir_ok _ hd
      by_cases hp : env.gplPresent = true
      · have hgpl := ensureGpl_present env hp
        refine ⟨?_, ?_, ⟨m, ?_⟩⟩ <;>
          simp [mainE, mainEvents, printDisclaimerPhase, hgpl, hdir, hm, seqE, preGateEvent]
      · have hp2 : env.gplPresent = false := by simpa using hp
        have hdl : env.gplDownloadOk = true := by
          simpa [gplOk, hp2] using hg
        have hgpl := ensureGpl_download env hp2 hdl
        refine ⟨?_, ?_, ⟨m, ?_⟩⟩ <;>
          simp [mainE, mainEvents, printDisclaimerPhase, hgpl, hdir, hm, seqE, preGateEvent]
    · have hd2 : dirCheckOk env.dirEntries = false := by simpa using hd
      have hdir := verifyDir_fail _ hd2
      by_cases hp : env.gplPresent = true
      · have hgpl := ensureGpl_present env hp
        refine ⟨?_, ?_, ⟨dirErrorMsg, ?_⟩⟩ <;>
          simp [mainE, mainEvents, printDisclaimerPhase, hgpl, hdir, seqE, preGateEvent]
      · have hp2 : env.gplPresent = false := by simpa using hp
        have hdl : env.gplDownloadOk = true := by
          simpa [gplOk, hp2] using hg
        have hgpl := ensureGpl_download env hp2 hdl
        refine ⟨?_, ?_, ⟨dirErrorMsg, ?_⟩⟩ <;>
          simp [mainE, mainEvents, printDisclaimerPhase, hgpl, hdir, seqE, preGateEvent]
  · have hgf : gplOk env = false := by simpa using hg
    obtain ⟨hp, hdl⟩ : env.gplPresent = false ∧ env.gplDownloadOk = false := by
      simpa [gplOk, Bool.or_eq_false_iff] using hgf
    have hgpl := ensureGpl_fail env hp hdl
    refine ⟨?_, ?_, ⟨gplDownloadingMsg, ?_⟩⟩ <;>
      simp [mainE, mainEvents, printDisclaimerPhase, hgpl, seqE, preGateEvent]

/-! Lemmas about the log-retention arithmetic. -/

theorem insertByMtime_perm (f : LogFile) (l : List LogFile) :
    List.Perm (insertByMtime f l) (f :: l) := by
  induction l with
  | nil => exact List.Perm.refl _
  | cons g gs ih =>
    by_cases h : f.mtime ≤ g.mtime
    · simp [insertByMtime, h]
    · simp only [insertByMtime, if_neg h]
      exact (List.Perm.cons g ih).trans (List.Perm.swap f g gs)

theorem sortByMtime_perm (l : List LogFile) : List.Perm (sortByMtime l) l := by
  induction l with
  | nil => exact List.Perm.refl _
  | cons f fs ih =>
    exact (insertByMtime_perm f (sortByMtime fs)).trans (List.Perm.cons f ih)

theorem insertByMtime_pairwise (f : LogFile) (l : List LogFile)
    (h : List.Pairwise (fun a b => a.mtime ≤ b.mtime) l) :
    List.Pairwise (fun a b => a.mtime ≤ b.mtime) (insertByMtime f l) := by
  induction l with
  | nil => simp [insertByMtime]
  | cons g gs ih =>
    rcases List.pairwise_cons.mp h with ⟨hg, hgs⟩
    by_cases hle : f.mtime ≤ g.mtime
    · simp only [insertByMtime, if_pos hle]
      refine List.pairwise_cons.mpr ⟨?_, h⟩
      intro b hb
      rcases List.mem_cons.mp hb with rfl | hb2
      · exact hle
      · exact Nat.le_trans hle (hg b hb2)
    · simp only [insertByMtime, if_neg hle]
      have hf : g.mtime ≤ f.mtime := Nat.le_of_not_le hle
      refine List.pairwise_cons.mpr ⟨?_, ih hgs⟩
      intro b hb
      have hb2 : b ∈ f :: gs := (insertByMtime_perm f gs).subset hb
      rcases List.mem_cons.mp hb2 with rfl | hb3
      · exact hf
      · exact hg b hb3

theorem sortByMtime_pairwise (l : List LogFile) :
    List.Pairwise (fun a b => a.mtime ≤ b.mtime) (sortByMtime l) := by
  induction l with
  | nil => simp [sortByMtime]
  | cons f fs ih => exact insertByMtime_pairwise f (sortByMtime fs) ih

theorem sortByMtime_head_min (l : List LogFile) (old : LogFile) (rest : List LogFile)
    (h : sortByMtime l = old :: rest) : ∀ g ∈ l, old.mtime ≤ g.mtime := by
  intro g hg
  have hp := sortByMtime_pairwise l
  have hmem : g ∈ sortByMtime l := (sortByMtime_perm l).mem_iff.mpr hg
  rw [h] at hmem hp
  rcases List.mem_cons.mp hmem with rfl | hmem2
  · exact Nat.le_refl _
  · exact (List.pairwise_cons.mp hp).1 g hmem2

theorem insertByMtime_of_le (f : LogFile) (l : List LogFile)
    (h : ∀ g ∈ l, f.mtime ≤ g.mtime) : insertByMtime f l = f :: l := by
  cases l with
  | nil => rfl
  | cons g gs => simp [insertByMtime, h g (by simp)]

theorem sortByMtime_sorted_id (l : List LogFile)
    (h : List.Pairwise (fun a b => a.mtime ≤ b.mtime) l) : sortByMtime l = l := by
  induction l with
  | nil => rfl
  | cons f fs ih =>
    rcases List.pairwise_cons.mp h with ⟨hf, hfs⟩
    show insertByMtime f (sortByMtime fs) = f :: fs
    rw [ih hfs]
    exact insertByMtime_of_le f fs hf

theorem setupLoggingDir_small (dir : List LogFile) (evictOk : Bool) (newFile : LogFile)
    (h : dir.length < 3) : setupLoggingDir dir evictOk newFile = dir ++ [newFile] := by
  have hlen : (sortByMtime dir).length = dir.length := (sortByMtime_perm dir).length_eq
  have hni : ¬ (sortByMtime dir).length ≥ 3 := by omega
  simp [setupLoggingDir, hni]

theorem setupLoggingDir_evict (dir : List LogFile) (newFile : LogFile)
    (h : 3 ≤ dir.length) :
    ∃ old, old ∈ dir ∧ (∀ g ∈ dir, old.mtime ≤ g.mtime) ∧
      setupLoggingDir dir true newFile = dir.erase old ++ [newFile] := by
  have hlen : (sortByMtime dir).length = dir.length := (sortByMtime_perm dir).length_eq
  obtain ⟨old, rest, hsort⟩ : ∃ old rest, sortByMtime dir = old :: rest := by
    cases hs : sortByMtime dir with
    | nil =>
      rw [hs] at hlen
      simp at hlen
      omega
    | cons a b => exact ⟨a, b, rfl⟩
  have hmem : old ∈ dir := (sortByMtime_perm dir).subset (by rw [hsort]; simp)
  refine ⟨old, hmem, sortByMtime_head_min dir old rest hsort, ?_⟩
  have hge : (sortByMtime dir).length ≥ 3 := by omega
  rw [hsort] at hge
  simp [setupLoggingDir, hsort, hge]
  intro h2
  have h3 : 2 ≤ rest.length := by simpa using hge
  exact absurd h2 (by omega)

theorem setupLoggingDir_len_le (dir : List LogFile) (newFile : LogFile)
    (h : dir.length ≤ 3) : (setupLoggingDir dir true newFile).length ≤ 3 := by
  rcases Nat.lt_or_ge dir.length 3 with hlt | hge
  · rw [setupLoggingDir_small dir true newFile hlt]
    simp
    omega
  · obtain ⟨old, hmem, _, heq⟩ := setupLoggingDir_evict dir newFile hge
    rw [heq]
    have he := List.length_erase_of_mem hmem
    simp [he]
    omega

theorem logRuns_closed (n : Nat) (h : 3 ≤ n) :
    logRuns n = [mkLog (n - 2), mkLog (n - 1), mkLog n] := by
  induction n with
  | zero => omega
  | succ m ih =>
    rcases Nat.lt_or_ge m 3 with hm | hm
    · have hm2 : m = 2 := by omega
      subst hm2
      decide
    · have ihm := ih (by omega)
      show setupLoggingDir (logRuns m) true (mkLog (m + 1)) = _
      rw [ihm]
      have hsort : sortByMtime [mkLog (m - 2), mkLog (m - 1), mkLog m] =
          [mkLog (m - 2), mkLog (m - 1), mkLog m] := by
        apply sortByMtime_sorted_id
        simp [List.pairwise_cons, mkLog]
        omega
      have e1 : m + 1 - 2 = m - 1 := by omega
      have e2 : m + 1 - 1 = m := by omega
      rw [e1, e2]
      simp [setupLoggingDir, hsort]

theorem logRuns_length (n : Nat) (h : 1 ≤ n) : (logRuns n).length = min n 3 := by
  rcases n with _ | _ | _ | m
  · omega
  · decide
  · decide
  · rw [logRuns_closed (m + 3) (by omega)]
    simp

/-! Lemmas about the missing-package computations. -/

theorem computeMissingApt_eq_filter (onPath : String → Bool) (reqs : List (String × String)) :
    computeMissingApt onPath reqs =
      (reqs.filter (fun p => !(onPath p.2))).map (fun p => p.1) := by
  induction reqs with
  | nil => rfl
  | cons p rest ih =>
    rcases p with ⟨q, cname⟩
    by_cases hq : onPath cname = true <;>
      simp [computeMissingApt, hq, ih, List.filter_cons]

theorem mem_computeMissingApt (onPath : String → Bool) (reqs : List (String × String))
    (pkg : String) :
    pkg ∈ computeMissingApt onPath reqs ↔
      ∃ c, (pkg, c) ∈ reqs ∧ onPath c = false := by
  rw [computeMissingApt_eq_filter]
  simp only [List.mem_map, List.mem_filter, Bool.not_eq_true']
  constructor
  · rintro ⟨⟨a, b⟩, ⟨hmem, hp⟩, rfl⟩
    exact ⟨b, hmem, hp⟩
  · rintro ⟨c, hmem, hf⟩
    exact ⟨(pkg, c), ⟨hmem, hf⟩, rfl⟩

theorem computeMissingApt_congr (p1 p2 : String → Bool) (reqs : List (String × String))
    (h : ∀ pr ∈ reqs, p1 pr.2 = p2 pr.2) :
    computeMissingApt p1 reqs = computeMissingApt p2 reqs := by
  induction reqs with
  | nil => rfl
  | cons p rest ih =>
    rcases p with ⟨q, cname⟩
    have hc := h (q, cname) (by simp)
    have hrest : ∀ pr ∈ rest, p1 pr.2 = p2 pr.2 := fun pr hpr => h pr (by simp [hpr])
    simp only at hc
    by_cases h2 : p2 cname = true <;>
      simp [computeMissingApt, hc, h2, ih hrest]

theorem computeMissingFlatpaks_eq_filter (installed : List String)
    (reqs : List (String × String)) :
    computeMissingFlatpaks installed reqs =
      reqs.filter (fun p => !(installed.contains p.2)) := by
  induction reqs with
  | nil => rfl
  | cons p rest ih =>
    rcases p with ⟨nm, aid⟩
    by_cases h : installed.contains aid = true <;>
      simp [computeMissingFlatpaks, h, ih, List.filter_cons]

theorem mem_computeMissingFlatpaks (installed : List String) (reqs : List (String × String))
    (p : String × String) :
    p ∈ computeMissingFlatpaks installed reqs ↔
      p ∈ reqs ∧ installed.contains p.2 = false := by
  rw [computeMissingFlatpaks_eq_filter]
  simp [List.mem_filter]

theorem computeMissingFlatpaks_nil (installed : List String) (reqs : List (String × String))
    (h : ∀ p ∈ reqs, installed.contains p.2 = true) :
    computeMissingFlatpaks installed reqs = [] := by
  rw [computeMissingFlatpaks_eq_filter]
  simp only [List.filter_eq_nil_iff]
  intro p hp
  simpa using h p hp

theorem flatpakInstallPhase_skip (env : Env) (installed : List String)
    (h : computeMissingFlatpaks installed FLATPAK_REQUIREMENTS = []) :
    flatpakInstallPhase env installed =
      ([Event.printed flatpakAllInstalledMsg], Outcome.done ()) := by
  simp [flatpakInstallPhase, h, emit]

/-! The command trace of the Flatpak install loop. -/

theorem ranCmdsOf_seqE_done {α β : Type} (x : Exec α) (f : α → Exec β) (v : α)
    (h : x.2 = Outcome.done v) :
    ranCmdsOf (seqE x f).1 = ranCmdsOf x.1 ++ ranCmdsOf (f v).1 := by
  rw [seqE_of_done x f v h]
  simp [ranCmdsOf]

theorem ranCmdsOf_runSubprocess_ok (env : Env) (c : Cmd)
    (h : (env.exec c).exitCode = 0) :
    ranCmdsOf (runSubprocessE env c).1 = [c] := by
  by_cases hs : (env.exec c).stdout = ("") <;>
    simp [runSubprocessE, h, hs, ranCmdsOf]

theorem installFlatpakApps_cmds (env : Env) (apps : List (String × String))
    (h : ∀ p ∈ apps, (env.exec (flatpakInstallCmd p.2)).exitCode = 0) :
    ranCmdsOf (installFlatpakApps env apps).1 =
      apps.map (fun p => flatpakInstallCmd p.2) := by
  induction apps with
  | nil => rfl
  | cons p rest ih =>
    rcases p with ⟨nm, aid⟩
    have hp := h (nm, aid) (by simp)
    simp only at hp
    have hrest : ∀ q ∈ rest, (env.exec (flatpakInstallCmd q.2)).exitCode = 0 :=
      fun q hq => h q (by simp [hq])
    have hdone : (runSubprocessE env (flatpakInstallCmd aid)).2 =
        Outcome.done ((env.exec (flatpakInstallCmd aid)).stdout) := by
      rw [runSubprocess_snd]
      simp [hp]
    show ranCmdsOf (seqE (emit [Event.printed (installingFlatpakMsg nm aid)]) _).1 = _
    rw [ranCmdsOf_seqE_done _ _ () rfl,
      ranCmdsOf_seqE_done _ _ _ hdone,
      ranCmdsOf_runSubprocess_ok env _ hp, ih hrest]
    simp [ranCmdsOf, emit]

/-! Lemmas about the ZeroTier step. -/

theorem join_ne_shell (x : String) : zerotierJoinCmd x ≠ zerotierShellCmd := by
  simp [zerotierJoinCmd, zerotierShellCmd]

theorem zerotier_empty (env : Env) (h : pyStrip env.networkIdInput = ("")) :
    (performZerotierCommands env).2 = Outcome.exited 1 ∧
      ∀ x, Event.ranCmd (zerotierJoinCmd x) ∉ (performZerotierCommands env).1 := by
  by_cases hs : (env.exec zerotierShellCmd).exitCode = 0 <;>
    by_cases hst : (env.exec zerotierShellCmd).stdout = ("") <;>
      exact ⟨by simp [performZerotierCommands, runSubprocessE, seqE, emit, h, hs, hst],
        by simp [performZerotierCommands, runSubprocessE, seqE, emit, h, hs, hst,
          join_ne_shell]⟩

theorem zerotier_join (env : Env) (h : pyStrip env.networkIdInput ≠ (""))
    (hs : (env.exec zerotierShellCmd).exitCode = 0) :
    Event.ranCmd (zerotierJoinCmd (pyStrip env.networkIdInput)) ∈
      (performZerotierCommands env).1 := by
  by_cases hst : (env.exec zerotierShellCmd).stdout = ("") <;>
    by_cases hj : (env.exec (zerotierJoinCmd (pyStrip env.networkIdInput))).exitCode = 0 <;>
      by_cases hjs : (env.exec (zerotierJoinCmd (pyStrip env.networkIdInput))).stdout = ("") <;>
        simp [performZerotierCommands, runSubprocessE, seqE, emit, h, hs, hst, hj, hjs]

/-! String-containment lemmas for the failure log. -/

theorem str_toList_append (a b : String) : (a ++ b).toList = a.toList ++ b.toList :=
  String.data_append a b

theorem runErrorMsg_contains_cmd (c : Cmd) (stderr : String) :
    List.IsInfix (cmdToStr c).toList (runErrorMsg c stderr).toList := by
  refine ⟨("Error running command \x27").toList, (("\x27: ") ++ stderr).toList, ?_⟩
  simp [runErrorMsg, str_toList_append]

theorem runErrorMsg_contains_stderr (c : Cmd) (stderr : String) :
    List.IsInfix stderr.toList (runErrorMsg c stderr).toList := by
  refine ⟨(("Error running command \x27") ++ cmdToStr c ++ ("\x27: ")).toList, [], ?_⟩
  simp [runErrorMsg, str_toList_append]

theorem consoleErrorMsg_contains_stderr (stderr : String) :
    List.IsInfix stderr.toList (consoleErrorMsg stderr).toList := by
  refine ⟨("Error: ").toList, [], ?_⟩
  simp [consoleErrorMsg, str_toList_append]

theorem runSubprocess_fail (env : Env) (c : Cmd) (h : (env.exec c).exitCode ≠ 0) :
    runSubprocessE env c =
      ([Event.ranCmd c, Event.loggedError (runErrorMsg c (env.exec c).stderr),
        Event.loggedError tracebackText,
        Event.printed (consoleErrorMsg (env.exec c).stderr)],
       Outcome.exited 1) := by
  simp [runSubprocessE, h]

theorem flatpakList_fail (env : Env) (h : (env.exec flatpakListCmd).exitCode ≠ 0) :
    flatpakListPhase env =
      ([Event.ranCmd flatpakListCmd, Event.loggedError flatpakListErrMsg],
       Outcome.done []) := by
  simp [flatpakListPhase, h]

/-! Command trace of the apt phase. -/

theorem aptInstall_ne_update (missing : List String) : aptInstallCmd missing ≠ aptUpdateCmd := by
  simp [aptInstallCmd, aptUpdateCmd]

theorem aptInstall_ne_upgrade (missing : List String) : aptInstallCmd missing ≠ aptUpgradeCmd := by
  simp [aptInstallCmd, aptUpgradeCmd]

theorem aptPhase_trace (env : Env) (missing : List String) :
    Event.ranCmd aptUpdateCmd ∈ (updateAndInstallAptPackages env missing).1 ∧
    ((env.exec aptUpdateCmd).exitCode = 0 →
       Event.ranCmd aptUpgradeCmd ∈ (updateAndInstallAptPackages env missing).1) ∧
    ((env.exec aptUpdateCmd).exitCode = 0 → (env.exec aptUpgradeCmd).exitCode = 0 →
       (Event.ranCmd (aptInstallCmd missing) ∈ (updateAndInstallAptPackages env missing).1 ↔
        missing ≠ [])) := by
  unfold updateAndInstallAptPackages
  refine ⟨?_, ?_, ?_⟩
  · simp [mem_seqE_const, mem_emit, mem_runSubprocess, execDone_emit]
  · intro h1
    simp [mem_seqE_const, mem_emit, mem_runSubprocess, execDone_emit,
      execDone_runSubprocess, h1]
  · intro h1 h2
    by_cases hm : missing = []
    · subst hm
      simp [mem_seqE_const, mem_emit, mem_runSubprocess, execDone_emit,
        execDone_runSubprocess, h1, h2, aptInstall_ne_update, aptInstall_ne_upgrade]
    · simp [hm, mem_seqE_const, mem_emit, mem_runSubprocess, execDone_emit,
        execDone_runSubprocess, h1, h2]

/-! The claims. -/

/-- C1: branch selection is determined solely by the completion marker — with
the gate passing, marker absent selects the `initial_setup` branch and marker
present selects the `update_system` branch; the marker-write event occurs
exactly when the run took the initial branch and every provisioning step up to
and including the ZeroTier join completed (the point where the script prints
that setup is complete) and the write itself succeeds; `update_system` never
writes the marker, and marker presence is monotonic (no code path removes the
marker file). -/
theorem c1_marker_state_machine (env : Env) :
    (env.markerPresent = true → markerAfter env)
  ∧ (gateOk env = true → env.markerPresent = false →
       Event.printed initialBranchMsg ∈ mainEvents env)
  ∧ (gateOk env = true → env.markerPresent = true →
       Event.printed updateBranchMsg ∈ mainEvents env)
  ∧ (env.markerPresent = true → Event.wroteMarker ∉ mainEvents env)
  ∧ (Event.wroteMarker ∈ mainEvents env ↔
       (gateOk env = true ∧ env.markerPresent = false ∧
        execDone (updateAndInstallAptPackages env
          (computeMissingApt env.commandOnPath APT_REQUIREMENTS)) = true ∧
        execDone (addFlathubRepo env) = true ∧
        execDone (flatpakInstallPhase env (installedOf env)) = true ∧
        execDone (performZerotierCommands env) = true ∧
        env.markerWriteOk = true)) := by
  have hmm := wroteMarker_mem_main env
  have his := wroteMarker_mem_initialSetup env
  refine ⟨?_, ?_, ?_, ?_, ?_⟩
  · intro h
    exact Or.inl h
  · intro hg hm
    exact (branch_selection env hg).1 hm
  · intro hg hm
    exact (branch_selection env hg).2 hm
  · intro hm hw
    rcases hmm.mp hw with ⟨_, hfalse, _⟩
    rw [hm] at hfalse
    exact absurd hfalse (by decide)
  · rw [hmm, his]

/-- C1 witness: on a healthy first run the initial branch is announced and the
marker gets written; with the marker present the update branch is announced
and the marker is never written. -/
theorem c1_witness :
    Event.printed initialBranchMsg ∈ mainEvents envFirstRunOk ∧
    Event.printed updateBranchMsg ∈ mainEvents envSecondRun ∧
    Event.wroteMarker ∈ mainEvents envFirstRunOk ∧
    Event.wroteMarker ∉ mainEvents envSecondRun :=
  ⟨(c1_marker_state_machine envFirstRunOk).2.1 (by decide) rfl,
   (c1_marker_state_machine envSecondRun).2.2.1 (by decide) rfl,
   ((c1_marker_state_machine envFirstRunOk).2.2.2.2).mpr
     ⟨by decide, rfl, by decide, by decide, by decide, by decide, rfl⟩,
   (c1_marker_state_machine envSecondRun).2.2.2.1 rfl⟩

/-- C2 counterexample: the claim quantifies over all external commands
including the `flatpak list` query, but when that query fails the run is not
aborted — it continues through the ZeroTier step and the reboot command and
ends without `sys.exit(1)`. -/
theorem c2_counterexample :
    (envFlatpakListFails.exec flatpakListCmd).exitCode ≠ 0 ∧
    (mainE envFlatpakListFails).2 = Outcome.done () ∧
    Event.ranCmd zerotierShellCmd ∈ mainEvents envFlatpakListFails ∧
    Event.ranCmd rebootCmd ∈ mainEvents envFlatpakListFails := by
  refine ⟨by decide, by decide, by decide, by decide⟩

/-- C2 (amended): every external command invoked through `run_subprocess`
that exits non-zero produces a logged error containing the command text and
the captured stderr plus a traceback record, a console message containing the
stderr, and exit code 1, with every later step skipped (`seqE` propagates the
exit); the `flatpak list` query of `initial_setup` is the one exception: its
failure is only logged and the run continues with an empty installed set. -/
theorem c2_run_subprocess_failure :
    (∀ (env : Env) (c : Cmd), (env.exec c).exitCode ≠ 0 →
       ((runSubprocessE env c).2 = Outcome.exited 1 ∧
        ∃ m, Event.loggedError m ∈ (runSubprocessE env c).1 ∧
          List.IsInfix (cmdToStr c).toList m.toList ∧
          List.IsInfix (env.exec c).stderr.toList m.toList ∧
          Event.loggedError tracebackText ∈ (runSubprocessE env c).1 ∧
          ∃ p, Event.printed p ∈ (runSubprocessE env c).1 ∧
            List.IsInfix (env.exec c).stderr.toList p.toList))
  ∧ (∀ (α β : Type) (x : Exec α) (f : α → Exec β) (n : Nat),
       x.2 = Outcome.exited n → seqE x f = (x.1, Outcome.exited n))
  ∧ (∀ env : Env, (env.exec flatpakListCmd).exitCode ≠ 0 →
       flatpakListPhase env =
         ([Event.ranCmd flatpakListCmd, Event.loggedError flatpakListErrMsg],
          Outcome.done [])) := by
  refine ⟨?_, ?_, ?_⟩
  · intro env c h
    rw [runSubprocess_fail env c h]
    exact ⟨rfl, runErrorMsg c (env.exec c).stderr, by simp,
      runErrorMsg_contains_cmd c _, runErrorMsg_contains_stderr c _, by simp,
      consoleErrorMsg (env.exec c).stderr, by simp, consoleErrorMsg_contains_stderr _⟩
  · intro α β x f n h
    exact seqE_of_exited x f n h
  · intro env h
    exact flatpakList_fail env h

/-- C2 witness: a concrete failing `run_subprocess` call exits 1, and the
concrete failing `flatpak list` query continues with an empty installed set. -/
theorem c2_witness :
    (runSubprocessE envFlatpakListFails flatpakListCmd).2 = Outcome.exited 1 ∧
    flatpakListPhase envFlatpakListFails =
      ([Event.ranCmd flatpakListCmd, Event.loggedError flatpakListErrMsg],
       Outcome.done []) :=
  ⟨(c2_run_subprocess_failure.1 envFlatpakListFails flatpakListCmd (by decide)).1,
   c2_run_subprocess_failure.2.2 envFlatpakListFails (by decide)⟩

/-- C3 counterexample: the license-file download writes `GPLv3.txt` before the
gate checks run, so a run whose hygiene gate fails has already mutated the
filesystem — contradicting the claim that the gate passes before any side
effect and that a gate failure leaves state unmutated. -/
theorem c3_counterexample :
    gateOk envGplThenDirFail = false ∧
    Event.wroteFile GPL_FILENAME ∈ mainEvents envGplThenDirFail ∧
    (mainE envGplThenDirFail).2 = Outcome.exited 1 := by
  refine ⟨by decide, by decide, by decide⟩

/-- C3 (amended): on any gate failure the run exits 1 before logging is
initialized and before any external command, log record or marker mutation;
the only effects that can precede the gate are console output, prompts and the
`GPLv3.txt` download. -/
theorem c3_gate_before_logging (env : Env) (h : gateOk env = false) :
    (mainE env).2 = Outcome.exited 1 ∧
    (∀ s, Event.loggedError s ∉ mainEvents env) ∧
    Event.logSetupDone ∉ mainEvents env ∧
    (∀ c, Event.ranCmd c ∉ mainEvents env) ∧
    Event.wroteMarker ∉ mainEvents env ∧
    (∀ n, Event.wroteFile n ∈ mainEvents env → n = GPL_FILENAME) ∧
    (∃ s, Event.printed s ∈ mainEvents env) := by
  obtain ⟨h1, h2, h3⟩ := main_gate_fail env h
  have hall : ∀ e ∈ mainEvents env, preGateEvent e = true :=
    fun e he => List.all_eq_true.mp h2 e he
  refine ⟨h1, ?_, ?_, ?_, ?_, ?_, h3⟩
  · intro s hs
    have := hall _ hs
    simp [preGateEvent] at this
  · intro hs
    have := hall _ hs
    simp [preGateEvent] at this
  · intro c hc
    have := hall _ hc
    simp [preGateEvent] at this
  · intro hw
    have := hall _ hw
    simp [preGateEvent] at this
  · intro n hn
    have := hall _ hn
    simpa [preGateEvent] using this

/-- C3 witness: the concrete gate-failing run exits 1 with logging never
initialized. -/
theorem c3_witness :
    (mainE envGplThenDirFail).2 = Outcome.exited 1 ∧
    Event.logSetupDone ∉ mainEvents envGplThenDirFail :=
  ⟨(c3_gate_before_logging envGplThenDirFail (by decide)).1,
   (c3_gate_before_logging envGplThenDirFail (by decide)).2.2.1⟩

/-- C4 counterexample: after three runs from an empty directory, a fourth call
whose eviction fails (a warned, non-fatal condition) leaves 4 log files — more
than 3 — refuting the unconditional retention bound. -/
theorem c4_counterexample :
    (setupLoggingDir (logRuns 3) false (mkLog 4)).length = 4 := by decide

/-- C4 (amended): provided the eviction succeeds whenever it is triggered,
a call on a directory holding at most 3 log files leaves at most 3; after N
runs (N≥1, evictions succeeding) from empty the directory holds exactly
min(N,3) files, namely the most recent ones by creation order; and when the
directory holds ≥ 3 files the evicted file is one with minimal modification
time. -/
theorem c4_log_retention :
    (∀ (dir : List LogFile) (f : LogFile), dir.length ≤ 3 →
       (setupLoggingDir dir true f).length ≤ 3)
  ∧ (∀ n : Nat, 1 ≤ n → (logRuns n).length = min n 3)
  ∧ (∀ n : Nat, n ≤ 3 → logRuns n = (List.range n).map (fun i => mkLog (i + 1)))
  ∧ (∀ n : Nat, 3 ≤ n → logRuns n = [mkLog (n - 2), mkLog (n - 1), mkLog n])
  ∧ (∀ (dir : List LogFile) (f : LogFile), 3 ≤ dir.length →
       ∃ old, old ∈ dir ∧ (∀ g ∈ dir, old.mtime ≤ g.mtime) ∧
         setupLoggingDir dir true f = dir.erase old ++ [f]) := by
  refine ⟨fun dir f h => setupLoggingDir_len_le dir f h,
    fun n h => logRuns_length n h, ?_,
    fun n h => logRuns_closed n h,
    fun dir f h => setupLoggingDir_evict dir f h⟩
  intro n h
  rcases n with _ | _ | _ | _ | k
  · decide
  · decide
  · decide
  · decide
  · omega

/-- C4 witness: after five runs from empty the directory holds min(5,3) = 3
files, the three most recent. -/
theorem c4_witness :
    (logRuns 5).length = min 5 3 ∧ logRuns 5 = [mkLog 3, mkLog 4, mkLog 5] := by
  constructor
  · exact c4_log_retention.2.1 5 (by decide)
  · have h := c4_log_retention.2.2.2.1 5 (by decide)
    simpa using h

/-- C5 counterexample: the identity `ID=Debian` differs from the string
`debian`, yet the check passes, because the code lowercases the id before
comparing. -/
theorem c5_counterexample :
    osIdentityPasses [(("ID"), ("Debian")), (("VERSION_ID"), ("12"))] = true ∧
    (("Debian") : String) ≠ ("debian") := by
  refine ⟨by decide, by decide⟩

/-- C5 (amended): the identity check passes exactly when the lowercased ID
field equals `debian` and the VERSION_ID field equals `12`, regardless of any
other fields; every other input makes `verify_os_and_desktop` print the Debian
error and exit 1. -/
theorem c5_identity_check :
    (∀ info : List (String × String),
       osIdentityPasses info = true ↔
         (pyLower (dictGet info ("ID") ("")) = ("debian") ∧
          dictGet info ("VERSION_ID") ("") = ("12")))
  ∧ (∀ (lines : List String) (desktopEnv : String),
       osIdentityPasses (parseOsRelease lines) = false →
       verifyOsAndDesktop (some lines) desktopEnv =
         ([Event.printed debianErrMsg], Outcome.exited 1)) := by
  constructor
  · intro info
    simp [osIdentityPasses]
  · intro lines desktopEnv h
    simp [verifyOsAndDesktop, h]

/-- C5 witness: a Debian 11 identity file fails the check with the Debian
error and exit 1. -/
theorem c5_witness :
    verifyOsAndDesktop (some [("ID=debian"), ("VERSION_ID=\x2211\x22")]) ("KDE") =
      ([Event.printed debianErrMsg], Outcome.exited 1) :=
  c5_identity_check.2 [("ID=debian"), ("VERSION_ID=\x2211\x22")] ("KDE") (by decide)

/-- C6: the computed missing apt set contains exactly the requirements whose
probe returns false; the computation depends only on the probe values on the
table, so recomputing without a state change yields the same list; the index
refresh and the upgrade commands run whether or not the set is empty, and the
install command runs exactly when it is non-empty. -/
theorem c6_missing_apt :
    (∀ (onPath : String → Bool) (reqs : List (String × String)) (pkg : String),
       pkg ∈ computeMissingApt onPath reqs ↔ ∃ c, (pkg, c) ∈ reqs ∧ onPath c = false)
  ∧ (∀ (p1 p2 : String → Bool) (reqs : List (String × String)),
       (∀ pr ∈ reqs, p1 pr.2 = p2 pr.2) →
       computeMissingApt p1 reqs = computeMissingApt p2 reqs)
  ∧ (∀ (env : Env) (missing : List String),
       Event.ranCmd aptUpdateCmd ∈ (updateAndInstallAptPackages env missing).1)
  ∧ (∀ (env : Env) (missing : List String), (env.exec aptUpdateCmd).exitCode = 0 →
       Event.ranCmd aptUpgradeCmd ∈ (updateAndInstallAptPackages env missing).1)
  ∧ (∀ (env : Env) (missing : List String),
       (env.exec aptUpdateCmd).exitCode = 0 → (env.exec aptUpgradeCmd).exitCode = 0 →
       (Event.ranCmd (aptInstallCmd missing) ∈ (updateAndInstallAptPackages env missing).1 ↔
        missing ≠ [])) :=
  ⟨mem_computeMissingApt, computeMissingApt_congr,
   fun env missing => (aptPhase_trace env missing).1,
   fun env missing => (aptPhase_trace env missing).2.1,
   fun env missing => (aptPhase_trace env missing).2.2⟩

/-- C6 witness: with only `curl` on the path, `python3-pylsp` is missing
(probed via `pylsp`), and on a healthy run with one missing package the
install command is issued. -/
theorem c6_witness :
    (("python3-pylsp") ∈ computeMissingApt (fun c => c == ("curl")) APT_REQUIREMENTS) ∧
    Event.ranCmd (aptInstallCmd [("curl")]) ∈
      (updateAndInstallAptPackages envFirstRunOk [("curl")]).1 :=
  ⟨(c6_missing_apt.1 (fun c => c == ("curl")) APT_REQUIREMENTS ("python3-pylsp")).mpr
     ⟨("pylsp"), by decide, by decide⟩,
   (c6_missing_apt.2.2.2.2 envFirstRunOk [("curl")] rfl rfl).mpr (by decide)⟩

/-- C7: the missing Flatpak set equals the requirement pairs whose id is not
in the installed set, in table order (it is the order-preserving filter of the
table); when the installed set covers the table the install step is skipped
entirely; otherwise the install loop issues exactly one install command per
missing entry, in order. -/
theorem c7_missing_flatpaks :
    (∀ (installed : List String) (reqs : List (String × String)) (p : String × String),
       p ∈ computeMissingFlatpaks installed reqs ↔
         p ∈ reqs ∧ installed.contains p.2 = false)
  ∧ (∀ (installed : List String) (reqs : List (String × String)),
       computeMissingFlatpaks installed reqs =
         reqs.filter (fun p => !(installed.contains p.2)))
  ∧ (∀ (env : Env) (installed : List String),
       (∀ p ∈ FLATPAK_REQUIREMENTS, installed.contains p.2 = true) →
       flatpakInstallPhase env installed =
         ([Event.printed flatpakAllInstalledMsg], Outcome.done ()))
  ∧ (∀ (env : Env) (apps : List (String × String)),
       (∀ p ∈ apps, (env.exec (flatpakInstallCmd p.2)).exitCode = 0) →
       ranCmdsOf (installFlatpakApps env apps).1 =
         apps.map (fun p => flatpakInstallCmd p.2)) :=
  ⟨mem_computeMissingFlatpaks, computeMissingFlatpaks_eq_filter,
   fun env installed h =>
     flatpakInstallPhase_skip env installed (computeMissingFlatpaks_nil _ _ h),
   installFlatpakApps_cmds⟩

/-- C7 witness: with every required id installed the phase only prints; with
one missing entry exactly its install command is issued. -/
theorem c7_witness :
    flatpakInstallPhase envFirstRunOk (FLATPAK_REQUIREMENTS.map (fun p => p.2)) =
      ([Event.printed flatpakAllInstalledMsg], Outcome.done ()) ∧
    ranCmdsOf (installFlatpakApps envFirstRunOk [(("VLC"), ("org.videolan.VLC"))]).1 =
      [flatpakInstallCmd ("org.videolan.VLC")] := by
  constructor
  · exact c7_missing_flatpaks.2.2.1 envFirstRunOk _ (by decide)
  · have h := c7_missing_flatpaks.2.2.2 envFirstRunOk
      [(("VLC"), ("org.videolan.VLC"))] (by decide)
    simpa using h

/-- C8: an empty string at the network-identifier prompt makes the ZeroTier
step exit 1 without ever issuing a join command. -/
theorem c8_empty_network_id (env : Env) (h : env.networkIdInput = ("")) :
    (performZerotierCommands env).2 = Outcome.exited 1 ∧
      ∀ x, Event.ranCmd (zerotierJoinCmd x) ∉ (performZerotierCommands env).1 := by
  have hstrip : pyStrip env.networkIdInput = ("") := by
    rw [h]
    decide
  exact zerotier_empty env hstrip

/-- C8 witness: the concrete empty-input environment exits 1 and never joins. -/
theorem c8_witness :
    (performZerotierCommands envEmptyNetworkId).2 = Outcome.exited 1 ∧
    Event.ranCmd (zerotierJoinCmd ("abc123")) ∉
      (performZerotierCommands envEmptyNetworkId).1 :=
  ⟨(c8_empty_network_id envEmptyNetworkId rfl).1,
   (c8_empty_network_id envEmptyNetworkId rfl).2 ("abc123")⟩

/-- C9: directory hygiene — every listing whose visible names all lie in the
allowed set passes; any visible entry outside the allowed set makes the check
print the error and exit 1; the verdict depends only on the entry names (so a
plain file named `log` passes), and hidden entries (leading dot) are ignored. -/
theorem c9_directory_hygiene :
    (∀ entries : List DirEntry,
       (visibleNames entries).all (fun nm => allowedItems.contains nm) = true →
       verifyDirectoryContents entries = ([], Outcome.done ()))
  ∧ (∀ (entries : List DirEntry) (extra : DirEntry), extra ∈ entries →
       startsWithDot extra.name = false → allowedItems.contains extra.name = false →
       verifyDirectoryContents entries = ([Event.printed dirErrorMsg], Outcome.exited 1))
  ∧ (∀ d1 d2 : List DirEntry, d1.map DirEntry.name = d2.map DirEntry.name →
       verifyDirectoryContents d1 = verifyDirectoryContents d2)
  ∧ (∀ (entries : List DirEntry) (hidden : DirEntry), startsWithDot hidden.name = true →
       verifyDirectoryContents (hidden :: entries) = verifyDirectoryContents entries) := by
  refine ⟨?_, ?_, ?_, ?_⟩
  · intro entries h
    exact verifyDir_ok entries h
  · intro entries extra hmem hvis hnot
    apply verifyDir_fail
    unfold dirCheckOk
    apply List.all_eq_false.mpr
    refine ⟨extra.name, ?_, by simpa using hnot⟩
    simp only [visibleNames, List.mem_filter, List.mem_map]
    exact ⟨⟨extra, hmem, rfl⟩, by simp [hvis]⟩
  · intro d1 d2 h
    unfold verifyDirectoryContents visibleNames
    rw [h]
  · intro entries hidden h
    unfold verifyDirectoryContents visibleNames
    simp [h]

/-- C9 witness: a listing where `log` is a plain file (plus a hidden entry)
passes; a listing with one stray visible file fails with exit 1. -/
theorem c9_witness :
    verifyDirectoryContents
        [⟨SCRIPT_NAME, false⟩, ⟨("log"), false⟩, ⟨(".git"), true⟩] =
      ([], Outcome.done ()) ∧
    verifyDirectoryContents [⟨SCRIPT_NAME, false⟩, ⟨("stray.txt"), false⟩] =
      ([Event.printed dirErrorMsg], Outcome.exited 1) :=
  ⟨c9_directory_hygiene.1 _ (by decide),
   c9_directory_hygiene.2.1 _ ⟨("stray.txt"), false⟩ (by decide) (by decide) (by decide)⟩

/-- C10: the prompt input is stripped before the emptiness test, so
whitespace-only input behaves like the empty string (exit 1, no join), and a
non-empty identifier is passed to the join command with its surrounding
whitespace removed. -/
theorem c10_whitespace_network_id (env : Env) :
    (pyStrip env.networkIdInput = ("") →
       (performZerotierCommands env).2 = Outcome.exited 1 ∧
       ∀ x, Event.ranCmd (zerotierJoinCmd x) ∉ (performZerotierCommands env).1)
  ∧ (pyStrip env.networkIdInput ≠ ("") → (env.exec zerotierShellCmd).exitCode = 0 →
       Event.ranCmd (zerotierJoinCmd (pyStrip env.networkIdInput)) ∈
         (performZerotierCommands env).1) :=
  ⟨zerotier_empty env, zerotier_join env⟩

/-- C10 witness: whitespace-only input exits 1 — both for ASCII spaces and
for a no-break space (U+00A0), which Python's strip also removes — and padded
input joins with the stripped identifier. -/
theorem c10_witness :
    (performZerotierCommands envSpacesNetworkId).2 = Outcome.exited 1 ∧
    (performZerotierCommands envNbspNetworkId).2 = Outcome.exited 1 ∧
    Event.ranCmd (zerotierJoinCmd ("abc123")) ∈
      (performZerotierCommands envPaddedNetworkId).1 := by
  refine ⟨?_, ?_, ?_⟩
  · exact ((c10_whitespace_network_id envSpacesNetworkId).1 (by decide)).1
  · exact ((c10_whitespace_network_id envNbspNetworkId).1 (by decide)).1
  · have h := (c10_whitespace_network_id envPaddedNetworkId).2 (by decide) rfl
    have hs : pyStrip envPaddedNetworkId.networkIdInput = ("abc123") := by decide
    rw [hs] at h
    exact h

end CIron
